import Mathlib

/-!
# Verification of the chapter-1 socket pair and the chapter-6 rotate macro

Shallow embedding of

* `code/chapter-1/client.c` (the Connector),
* `code/chapter-1/server.c` (the Listener),
* `code/chapter-6/test2.c` (the `ROTL` macro).

Each `main` is a straight-line program over system calls.  It is embedded as a
step function on a machine state (program counter named after the source line,
the local variables, the set of descriptors the program opened and has not
closed, and the trace of observable events).  The results of the system calls
are read from an environment record, so a run is a function of the environment.
-/

namespace RedisInRuby

/-! ## Bytes, C strings and the libc helpers used by the programs -/

/-- A `char` of the program, as its unsigned value. -/
abbrev Byte := Nat

/-- The macro `#define MAX 80` of both programs. -/
def MAX : Nat := 80

/-- The macro `#define PORT 2000` of both programs. -/
def PORT : Nat := 2000

/-- The bytes of a C string literal, without its terminating NUL. -/
def bytesOf (s : String) : List Byte := s.toList.map Char.toNat

/-- A declaration `char a[n] = "lit"`: the literal, then zero bytes up to `n`. -/
def initArray (n : Nat) (lit : List Byte) : List Byte :=
  lit ++ List.replicate (n - lit.length) 0

/-- The call `bzero(buf, n)`: the first `n` bytes become zero. -/
def bzero (buf : List Byte) (n : Nat) : List Byte :=
  List.replicate n 0 ++ buf.drop n

/-- The call `strcpy(dst, "lit")`: the literal and its NUL overwrite the start of `dst`. -/
def strcpy (dst : List Byte) (lit : List Byte) : List Byte :=
  lit ++ 0 :: dst.drop (lit.length + 1)

/-- What `printf` reads for a `%s` argument pointing at the array `buf`: the bytes
before the first zero byte.  The answer is `none` when the array holds no zero byte,
in which case the scan leaves the array. -/
def cstr : List Byte → Option (List Byte)
  | [] => none
  | b :: bs => if b = 0 then some [] else (cstr bs).map (fun t => b :: t)

/-- The effect of `read(fd, buf, count)` on the buffer, given what the kernel delivers:
`none` is a failed read (result `-1`, buffer untouched), `some d` delivers the first
`count` bytes of `d` at the start of the buffer and returns their number. -/
def sysRead (delivered : Option (List Byte)) (buf : List Byte) (count : Nat) :
    Int × List Byte :=
  match delivered with
  | none => (-1, buf)
  | some d => (((d.take count).length : Nat), d.take count ++ buf.drop (d.take count).length)

/-! ## Observable events -/

/-- An argument of a `printf` call. -/
inductive PrintfArg where
  | int (v : Int)
  | str (text : Option (List Byte))
  deriving DecidableEq, Repr

/-- The system calls the two programs make. -/
inductive Syscall where
  | socket | bind | listen | accept | connect | read | write | close
  deriving DecidableEq, Repr

/-- One observable action of a process, with the value the call returned. -/
inductive Event where
  | socket (ret : Int)
  | bind (fd : Int) (port : Nat) (ret : Int)
  | listen (fd : Int) (backlog : Nat) (ret : Int)
  | accept (fd : Int) (ret : Int)
  | connect (fd : Int) (port : Nat) (ret : Int)
  | read (fd : Int) (count : Nat) (ret : Int)
  | write (fd : Int) (bytes : List Byte) (ret : Int)
  | close (fd : Int)
  | printf (fmt : String) (args : List PrintfArg)
  | exit (status : Int)
  deriving DecidableEq, Repr

/-- The system call an event is, if it is one. -/
def Event.call : Event → Option Syscall
  | .socket _ => some .socket
  | .bind _ _ _ => some .bind
  | .listen _ _ _ => some .listen
  | .accept _ _ => some .accept
  | .connect _ _ _ => some .connect
  | .read _ _ _ => some .read
  | .write _ _ _ => some .write
  | .close _ => some .close
  | .printf _ _ => none
  | .exit _ => none

/-- The value a system call returned; the result of `close` is not recorded. -/
def Event.ret : Event → Option Int
  | .socket r => some r
  | .bind _ _ r => some r
  | .listen _ _ r => some r
  | .accept _ r => some r
  | .connect _ _ r => some r
  | .read _ _ r => some r
  | .write _ _ r => some r
  | .close _ => none
  | .printf _ _ => none
  | .exit _ => none

/-- A system call failed: it returned `-1`. -/
def Event.failed (e : Event) : Bool := e.ret == some (-1)

/-- The byte sequences handed to `write`, in order. -/
def writtenBytes : List Event → List (List Byte)
  | [] => []
  | .write _ bytes _ :: rest => bytes :: writtenBytes rest
  | _ :: rest => writtenBytes rest

/-- The `%s` texts printed by the `printf` calls with format `fmt`, in order. -/
def printedText (fmt : String) : List Event → List (Option (List Byte))
  | [] => []
  | .printf f [.str t] :: rest =>
    if f = fmt then t :: printedText fmt rest else printedText fmt rest
  | _ :: rest => printedText fmt rest

/-- Descriptors and operations of the reads and writes of a trace, in order. -/
def ioCalls : List Event → List (Syscall × Int)
  | [] => []
  | .read fd _ _ :: rest => (.read, fd) :: ioCalls rest
  | .write fd _ _ :: rest => (.write, fd) :: ioCalls rest
  | _ :: rest => ioCalls rest

/-- The number of calls of `op` in a trace. -/
def callCount (op : Syscall) (t : List Event) : Nat :=
  (t.filter (fun e => e.call == some op)).length

/-- The rest of a trace is one `printf` followed by `exit`, and nothing more. -/
def isDiagnosticExit : List Event → Bool
  | [.printf _ _, .exit _] => true
  | _ => false

/-- Every failed call of the trace whose operation is in `checked` is directly
followed by a diagnostic and the exit of the process, which end the trace. -/
def failStop (checked : Syscall → Bool) : List Event → Bool
  | [] => true
  | e :: rest =>
    (match e.call with
     | some op => if checked op && e.failed then isDiagnosticExit rest else true
     | none => true) && failStop checked rest

/-- The operations whose result the programs test: all but `read`, `write`, `close`. -/
def resultTested : Syscall → Bool
  | .socket | .bind | .listen | .accept | .connect => true
  | .read | .write | .close => false

/-! ## The Connector: `code/chapter-1/client.c` -/

/-- What the operating system answers to the Connector's calls. -/
structure ConnectorEnv where
  socket_ret : Int
  connect_ret : Int
  write_ret : Int
  read_delivers : Option (List Byte)

/-- Program points of `client.c`, named by source line. -/
inductive ConnectorPC where
  | socket_18 | connect_35 | init_43 | write_44 | bzero_45 | read_46 | printf_47
  | close_50 | exited
  deriving DecidableEq, Repr

/-- Machine state of the Connector. -/
structure ConnectorState where
  pc : ConnectorPC
  server_socket_file_descriptor : Int
  message_buffer : List Byte
  open_fds : List Int
  trace : List Event
  status : Option Int

/-- State at entry of `main`; `message_buffer` is not yet declared. -/
def connectorInit : ConnectorState :=
  { pc := .socket_18, server_socket_file_descriptor := 0, message_buffer := [],
    open_fds := [], trace := [], status := none }

/-- One statement of `client.c`. -/
def connectorStep (env : ConnectorEnv) (s : ConnectorState) : ConnectorState :=
  match s.pc with
  | .socket_18 =>
    let fd := env.socket_ret
    if fd = -1 then
      { s with pc := .exited, server_socket_file_descriptor := fd, status := some 0,
               trace := s.trace ++ [.socket fd, .printf "socket creation failed...\n" [],
                                    .exit 0] }
    else
      { s with pc := .connect_35, server_socket_file_descriptor := fd,
               open_fds := fd :: s.open_fds,
               trace := s.trace ++ [.socket fd, .printf "Socket successfully created..\n" []] }
  | .connect_35 =>
    let r := env.connect_ret
    if r ≠ 0 then
      { s with pc := .exited, status := some 0,
               trace := s.trace ++ [.connect s.server_socket_file_descriptor PORT r,
                                    .printf "connection with the server failed...\n" [],
                                    .exit 0] }
    else
      { s with pc := .init_43,
               trace := s.trace ++ [.connect s.server_socket_file_descriptor PORT r,
                                    .printf "connected to the server..\n" []] }
  | .init_43 =>
    { s with pc := .write_44,
             message_buffer := initArray MAX (bytesOf "Hello, this is Client") }
  | .write_44 =>
    { s with pc := .bzero_45,
             trace := s.trace ++ [.write s.server_socket_file_descriptor
                                    (s.message_buffer.take MAX) env.write_ret] }
  | .bzero_45 =>
    { s with pc := .read_46, message_buffer := bzero s.message_buffer MAX }
  | .read_46 =>
    let r := sysRead env.read_delivers s.message_buffer MAX
    { s with pc := .printf_47, message_buffer := r.2,
             trace := s.trace ++ [.read s.server_socket_file_descriptor MAX r.1] }
  | .printf_47 =>
    { s with pc := .close_50,
             trace := s.trace ++ [.printf "From Server: %s" [.str (cstr s.message_buffer)]] }
  | .close_50 =>
    -- control then reaches the closing brace of `main`, which returns 0
    { s with pc := .exited, status := some 0,
             open_fds := s.open_fds.erase s.server_socket_file_descriptor,
             trace := s.trace ++ [.close s.server_socket_file_descriptor] }
  | .exited => s

/-- The Connector's state after `n` steps. -/
def connectorStateAt (env : ConnectorEnv) (n : Nat) : ConnectorState :=
  (connectorStep env)^[n] connectorInit

/-- A run of the Connector: `main` has at most eight statements to execute. -/
def connectorMain (env : ConnectorEnv) : ConnectorState :=
  connectorStateAt env 8

/-! ## The Listener: `code/chapter-1/server.c` -/

/-- What the operating system answers to the Listener's calls, and what the stack
holds where the uninitialised `message_buffer` is placed. -/
structure ListenerEnv where
  socket_ret : Int
  bind_ret : Int
  bind_errno : Int
  listen_ret : Int
  accept_ret : Int
  accept_errno : Int
  peer_address : List Byte
  stack_garbage : Nat → Byte
  read_delivers : Option (List Byte)
  write_ret : Int

/-- Program points of `server.c`, named by source line. -/
inductive ListenerPC where
  | socket_20 | bind_36 | listen_45 | accept_55 | decl_67 | read_68 | printf_69
  | bzero_70 | strcpy_72 | write_73 | close_77 | exited
  deriving DecidableEq, Repr

/-- Machine state of the Listener. -/
structure ListenerState where
  pc : ListenerPC
  server_socket_file_descriptor : Int
  client_socket_file_descriptor : Int
  message_buffer : List Byte
  open_fds : List Int
  trace : List Event
  status : Option Int

/-- State at entry of `main`; `message_buffer` is not yet declared. -/
def listenerInit : ListenerState :=
  { pc := .socket_20, server_socket_file_descriptor := 0,
    client_socket_file_descriptor := 0, message_buffer := [],
    open_fds := [], trace := [], status := none }

/-- One statement of `server.c`. -/
def listenerStep (env : ListenerEnv) (s : ListenerState) : ListenerState :=
  match s.pc with
  | .socket_20 =>
    let fd := env.socket_ret
    if fd = -1 then
      { s with pc := .exited, server_socket_file_descriptor := fd, status := some 0,
               trace := s.trace ++ [.socket fd, .printf "socket creation failed...\n" [],
                                    .exit 0] }
    else
      { s with pc := .bind_36, server_socket_file_descriptor := fd,
               open_fds := fd :: s.open_fds,
               trace := s.trace ++ [.socket fd, .printf "Socket successfully created..\n" []] }
  | .bind_36 =>
    let r := env.bind_ret
    if r ≠ 0 then
      { s with pc := .exited, status := some 0,
               trace := s.trace ++ [.bind s.server_socket_file_descriptor PORT r,
                                    .printf "socket bind failed... : %d, %d\n"
                                      [.int s.server_socket_file_descriptor,
                                       .int env.bind_errno],
                                    .exit 0] }
    else
      { s with pc := .listen_45,
               trace := s.trace ++ [.bind s.server_socket_file_descriptor PORT r,
                                    .printf "Socket successfully binded..\n" []] }
  | .listen_45 =>
    let r := env.listen_ret
    if r ≠ 0 then
      { s with pc := .exited, status := some 0,
               trace := s.trace ++ [.listen s.server_socket_file_descriptor 5 r,
                                    .printf "Listen failed...\n" [], .exit 0] }
    else
      { s with pc := .accept_55,
               trace := s.trace ++ [.listen s.server_socket_file_descriptor 5 r,
                                    .printf "Server listening..\n" []] }
  | .accept_55 =>
    let fd := env.accept_ret
    if fd < 0 then
      { s with pc := .exited, client_socket_file_descriptor := fd, status := some 0,
               trace := s.trace ++ [.accept s.server_socket_file_descriptor fd,
                                    .printf "server acccept failed: %d,%d...\n"
                                      [.int fd, .int env.accept_errno],
                                    .exit 0] }
    else
      { s with pc := .decl_67, client_socket_file_descriptor := fd,
               open_fds := fd :: s.open_fds,
               trace := s.trace ++ [.accept s.server_socket_file_descriptor fd,
                                    .printf "server acccept the client...\n" [],
                                    .printf "Client address: %s\n"
                                      [.str (some env.peer_address)]] }
  | .decl_67 =>
    { s with pc := .read_68, message_buffer := (List.range MAX).map env.stack_garbage }
  | .read_68 =>
    let r := sysRead env.read_delivers s.message_buffer MAX
    { s with pc := .printf_69, message_buffer := r.2,
             trace := s.trace ++ [.read s.client_socket_file_descriptor MAX r.1] }
  | .printf_69 =>
    { s with pc := .bzero_70,
             trace := s.trace ++ [.printf "From Client: %s\n" [.str (cstr s.message_buffer)]] }
  | .bzero_70 =>
    { s with pc := .strcpy_72, message_buffer := bzero s.message_buffer MAX }
  | .strcpy_72 =>
    { s with pc := .write_73,
             message_buffer := strcpy s.message_buffer (bytesOf "Hello, this is Server!") }
  | .write_73 =>
    { s with pc := .close_77,
             trace := s.trace ++ [.write s.client_socket_file_descriptor
                                    (s.message_buffer.take MAX) env.write_ret] }
  | .close_77 =>
    -- control then reaches the closing brace of `main`, which returns 0
    { s with pc := .exited, status := some 0,
             open_fds := s.open_fds.erase s.server_socket_file_descriptor,
             trace := s.trace ++ [.printf "Closing server_socket_file_descriptor\n" [],
                                  .close s.server_socket_file_descriptor] }
  | .exited => s

/-- The Listener's state after `n` steps. -/
def listenerStateAt (env : ListenerEnv) (n : Nat) : ListenerState :=
  (listenerStep env)^[n] listenerInit

/-- A run of the Listener: `main` has at most eleven statements to execute. -/
def listenerMain (env : ListenerEnv) : ListenerState :=
  listenerStateAt env 11

/-! ## The rotate macro: `code/chapter-6/test2.c` -/

/-- The macro `ROTL(x, b)` at a `uint64_t` argument `x`:
`(uint64_t)(((x) << (b)) | ((x) >> (64 - (b))))`.  The left shift is taken in
`uint64_t`, that is modulo `2^64`.  C defines both shifts for `1 ≤ b ≤ 63`. -/
def ROTL (x b : Nat) : Nat :=
  (((x <<< b) % 2 ^ 64) ||| (x >>> (64 - b))) % 2 ^ 64

/-- The constant `v1` of `test2.c`. -/
def v1 : Nat := 0x646f72616e646f6d

/-- The two numbers `main` of `test2.c` prints, in order. -/
def test2Main : List Nat := [v1, ROTL v1 13]

/-! ## Source order of the program points -/

/-- Position of a program point of `client.c` in the source. -/
def ConnectorPC.rank : ConnectorPC → Nat
  | .socket_18 => 0 | .connect_35 => 1 | .init_43 => 2 | .write_44 => 3 | .bzero_45 => 4
  | .read_46 => 5 | .printf_47 => 6 | .close_50 => 7 | .exited => 8

/-- Position of a program point of `server.c` in the source. -/
def ListenerPC.rank : ListenerPC → Nat
  | .socket_20 => 0 | .bind_36 => 1 | .listen_45 => 2 | .accept_55 => 3 | .decl_67 => 4
  | .read_68 => 5 | .printf_69 => 6 | .bzero_70 => 7 | .strcpy_72 => 8 | .write_73 => 9
  | .close_77 => 10 | .exited => 11

/-- The Listener's fatal paths: one of the tested calls is answered with a failure. -/
def ListenerEnv.fatal (env : ListenerEnv) : Prop :=
  env.socket_ret = -1 ∨ env.bind_ret ≠ 0 ∨ env.listen_ret ≠ 0 ∨ env.accept_ret < 0

/-- The Connector's fatal paths: one of the tested calls is answered with a failure. -/
def ConnectorEnv.fatal (env : ConnectorEnv) : Prop :=
  env.socket_ret = -1 ∨ env.connect_ret ≠ 0

/-! ## Concrete environments -/

/-- An environment in which every call of the Connector succeeds and the read
delivers the Listener's 80-byte reply. -/
def connectorEnvOk : ConnectorEnv :=
  { socket_ret := 3, connect_ret := 0, write_ret := 80,
    read_delivers := some (bytesOf "Hello, this is Server!" ++ List.replicate 58 0) }

/-- An environment in which the Connector's read delivers the five bytes `abc\0d`. -/
def connectorEnvShort : ConnectorEnv :=
  { socket_ret := 3, connect_ret := 0, write_ret := 80,
    read_delivers := some [97, 98, 99, 0, 100] }

/-- An environment in which every call of the Listener succeeds and the read
delivers the Connector's 80-byte greeting into a buffer full of `0xCC`. -/
def listenerEnvOk : ListenerEnv :=
  { socket_ret := 3, bind_ret := 0, bind_errno := 0, listen_ret := 0, accept_ret := 4,
    accept_errno := 0, peer_address := bytesOf "127.0.0.1",
    stack_garbage := fun _ => 0xCC,
    read_delivers := some (bytesOf "Hello, this is Client" ++ List.replicate 59 0),
    write_ret := 80 }

/-- An environment in which the Listener's read fails; the stack holds zero bytes. -/
def listenerEnvReadFails : ListenerEnv :=
  { socket_ret := 3, bind_ret := 0, bind_errno := 0, listen_ret := 0, accept_ret := 4,
    accept_errno := 0, peer_address := bytesOf "127.0.0.1",
    stack_garbage := fun _ => 0, read_delivers := none, write_ret := 80 }

/-! ## Runs, case by case -/

theorem connectorMain_socket_fails (env : ConnectorEnv) (h1 : env.socket_ret = -1) :
    connectorMain env =
      { pc := .exited, server_socket_file_descriptor := -1, message_buffer := [],
        open_fds := [], status := some 0,
        trace := [.socket (-1), .printf "socket creation failed...\n" [], .exit 0] } := by
  simp [connectorMain, connectorStateAt, connectorStep, connectorInit, h1]

theorem connectorMain_connect_fails (env : ConnectorEnv) (h1 : env.socket_ret ≠ -1)
    (h2 : env.connect_ret ≠ 0) :
    connectorMain env =
      { pc := .exited, server_socket_file_descriptor := env.socket_ret,
        message_buffer := [], open_fds := [env.socket_ret], status := some 0,
        trace := [.socket env.socket_ret, .printf "Socket successfully created..\n" [],
                  .connect env.socket_ret PORT env.connect_ret,
                  .printf "connection with the server failed...\n" [], .exit 0] } := by
  simp [connectorMain, connectorStateAt, connectorStep, connectorInit, h1, h2]

theorem connectorMain_connected (env : ConnectorEnv) (h1 : env.socket_ret ≠ -1)
    (h2 : env.connect_ret = 0) :
    connectorMain env =
      { pc := .exited, server_socket_file_descriptor := env.socket_ret,
        message_buffer :=
          (sysRead env.read_delivers
            (bzero (initArray MAX (bytesOf "Hello, this is Client")) MAX) MAX).2,
        open_fds := [], status := some 0,
        trace := [.socket env.socket_ret, .printf "Socket successfully created..\n" [],
                  .connect env.socket_ret PORT 0,
                  .printf "connected to the server..\n" [],
                  .write env.socket_ret
                    ((initArray MAX (bytesOf "Hello, this is Client")).take MAX)
                    env.write_ret,
                  .read env.socket_ret MAX
                    (sysRead env.read_delivers
                      (bzero (initArray MAX (bytesOf "Hello, this is Client")) MAX) MAX).1,
                  .printf "From Server: %s"
                    [.str (cstr (sysRead env.read_delivers
                      (bzero (initArray MAX (bytesOf "Hello, this is Client")) MAX) MAX).2)],
                  .close env.socket_ret] } := by
  simp [connectorMain, connectorStateAt, connectorStep, connectorInit, h1, h2]

theorem listenerMain_socket_fails (env : ListenerEnv) (h1 : env.socket_ret = -1) :
    listenerMain env =
      { pc := .exited, server_socket_file_descriptor := -1,
        client_socket_file_descriptor := 0, message_buffer := [],
        open_fds := [], status := some 0,
        trace := [.socket (-1), .printf "socket creation failed...\n" [], .exit 0] } := by
  simp [listenerMain, listenerStateAt, listenerStep, listenerInit, h1]

theorem listenerMain_bind_fails (env : ListenerEnv) (h1 : env.socket_ret ≠ -1)
    (h2 : env.bind_ret ≠ 0) :
    listenerMain env =
      { pc := .exited, server_socket_file_descriptor := env.socket_ret,
        client_socket_file_descriptor := 0, message_buffer := [],
        open_fds := [env.socket_ret], status := some 0,
        trace := [.socket env.socket_ret, .printf "Socket successfully created..\n" [],
                  .bind env.socket_ret PORT env.bind_ret,
                  .printf "socket bind failed... : %d, %d\n"
                    [.int env.socket_ret, .int env.bind_errno],
                  .exit 0] } := by
  simp [listenerMain, listenerStateAt, listenerStep, listenerInit, h1, h2]

theorem listenerMain_listen_fails (env : ListenerEnv) (h1 : env.socket_ret ≠ -1)
    (h2 : env.bind_ret = 0) (h3 : env.listen_ret ≠ 0) :
    listenerMain env =
      { pc := .exited, server_socket_file_descriptor := env.socket_ret,
        client_socket_file_descriptor := 0, message_buffer := [],
        open_fds := [env.socket_ret], status := some 0,
        trace := [.socket env.socket_ret, .printf "Socket successfully created..\n" [],
                  .bind env.socket_ret PORT 0,
                  .printf "Socket successfully binded..\n" [],
                  .listen env.socket_ret 5 env.listen_ret,
                  .printf "Listen failed...\n" [], .exit 0] } := by
  simp [listenerMain, listenerStateAt, listenerStep, listenerInit, h1, h2, h3]

theorem listenerMain_accept_fails (env : ListenerEnv) (h1 : env.socket_ret ≠ -1)
    (h2 : env.bind_ret = 0) (h3 : env.listen_ret = 0) (h4 : env.accept_ret < 0) :
    listenerMain env =
      { pc := .exited, server_socket_file_descriptor := env.socket_ret,
        client_socket_file_descriptor := env.accept_ret, message_buffer := [],
        open_fds := [env.socket_ret], status := some 0,
        trace := [.socket env.socket_ret, .printf "Socket successfully created..\n" [],
                  .bind env.socket_ret PORT 0,
                  .printf "Socket successfully binded..\n" [],
                  .listen env.socket_ret 5 0, .printf "Server listening..\n" [],
                  .accept env.socket_ret env.accept_ret,
                  .printf "server acccept failed: %d,%d...\n"
                    [.int env.accept_ret, .int env.accept_errno],
                  .exit 0] } := by
  simp [listenerMain, listenerStateAt, listenerStep, listenerInit, h1, h2, h3, h4]

theorem listenerMain_accepted (env : ListenerEnv) (h1 : env.socket_ret ≠ -1)
    (h2 : env.bind_ret = 0) (h3 : env.listen_ret = 0) (h4 : 0 ≤ env.accept_ret) :
    listenerMain env =
      { pc := .exited, server_socket_file_descriptor := env.socket_ret,
        client_socket_file_descriptor := env.accept_ret,
        message_buffer :=
          strcpy (bzero (sysRead env.read_delivers
              ((List.range MAX).map env.stack_garbage) MAX).2 MAX)
            (bytesOf "Hello, this is Server!"),
        open_fds := [env.accept_ret, env.socket_ret].erase env.socket_ret,
        status := some 0,
        trace := [.socket env.socket_ret, .printf "Socket successfully created..\n" [],
                  .bind env.socket_ret PORT 0,
                  .printf "Socket successfully binded..\n" [],
                  .listen env.socket_ret 5 0, .printf "Server listening..\n" [],
                  .accept env.socket_ret env.accept_ret,
                  .printf "server acccept the client...\n" [],
                  .printf "Client address: %s\n" [.str (some env.peer_address)],
                  .read env.accept_ret MAX
                    (sysRead env.read_delivers
                      ((List.range MAX).map env.stack_garbage) MAX).1,
                  .printf "From Client: %s\n"
                    [.str (cstr (sysRead env.read_delivers
                      ((List.range MAX).map env.stack_garbage) MAX).2)],
                  .write env.accept_ret
                    ((strcpy (bzero (sysRead env.read_delivers
                        ((List.range MAX).map env.stack_garbage) MAX).2 MAX)
                      (bytesOf "Hello, this is Server!")).take MAX)
                    env.write_ret,
                  .printf "Closing server_socket_file_descriptor\n" [],
                  .close env.socket_ret] } := by
  have h4 : ¬ env.accept_ret < 0 := not_lt.mpr h4
  simp [listenerMain, listenerStateAt, listenerStep, listenerInit, h1, h2, h3, h4]

/-! ## Buffers -/

theorem cstr_append_zeros (xs : List Byte) (k : Nat) :
    cstr (xs ++ List.replicate (k + 1) 0) = some (xs.takeWhile (fun b => b ≠ 0)) := by
  induction xs with
  | nil => simp [cstr, List.replicate_succ]
  | cons x xs ih =>
    by_cases hx : x = 0
    · simp [cstr, hx]
    · simp [cstr, hx, ih]

theorem server_reply (buf : List Byte) :
    (strcpy (bzero buf MAX) (bytesOf "Hello, this is Server!")).take MAX
      = bytesOf "Hello, this is Server!" ++ List.replicate 58 0 := by
  have hl : bytesOf "Hello, this is Server!" =
      [72, 101, 108, 108, 111, 44, 32, 116, 104, 105, 115, 32, 105, 115, 32,
       83, 101, 114, 118, 101, 114, 33] := by decide
  rw [hl]
  simp [strcpy, bzero, MAX, List.drop_append_eq_append_drop, List.replicate]

theorem client_greeting :
    (initArray MAX (bytesOf "Hello, this is Client")).take MAX
      = bytesOf "Hello, this is Client" ++ List.replicate 59 0 := by decide

theorem client_zeroed :
    bzero (initArray MAX (bytesOf "Hello, this is Client")) MAX = List.replicate 80 0 := by
  decide

theorem sysRead_short (d : List Byte) (h : d.length < MAX) :
    sysRead (some d) (List.replicate 80 0) MAX
      = (((d.length : Nat) : Int), d ++ List.replicate (79 - d.length + 1) 0) := by
  have h1 : d.take MAX = d := List.take_of_length_le (Nat.le_of_lt h)
  simp only [sysRead, h1, List.drop_replicate]
  congr 3
  simp only [MAX] at h
  omega

theorem sysRead_full (d buf : List Byte) (hb : buf.length = MAX) (h : d.length = MAX) :
    sysRead (some d) buf MAX = (((MAX : Nat) : Int), d) := by
  have h1 : d.take MAX = d := List.take_of_length_le (Nat.le_of_eq h)
  simp [sysRead, h1, h, hb]

/-- The Listener writes nothing or its fixed reply. -/
theorem listener_written (env : ListenerEnv) :
    writtenBytes (listenerMain env).trace = [] ∨
    writtenBytes (listenerMain env).trace
      = [bytesOf "Hello, this is Server!" ++ List.replicate 58 0] := by
  by_cases h1 : env.socket_ret = -1
  · left; rw [listenerMain_socket_fails env h1]; simp [writtenBytes]
  by_cases h2 : env.bind_ret = 0
  swap
  · left; rw [listenerMain_bind_fails env h1 h2]; simp [writtenBytes]
  by_cases h3 : env.listen_ret = 0
  swap
  · left; rw [listenerMain_listen_fails env h1 h2 h3]; simp [writtenBytes]
  by_cases h4 : env.accept_ret < 0
  · left; rw [listenerMain_accept_fails env h1 h2 h3 h4]; simp [writtenBytes]
  · right
    rw [listenerMain_accepted env h1 h2 h3 (not_lt.mp h4)]
    simp [writtenBytes, server_reply]

/-- The Connector writes nothing or its fixed greeting. -/
theorem connector_written (env : ConnectorEnv) :
    writtenBytes (connectorMain env).trace = [] ∨
    writtenBytes (connectorMain env).trace
      = [bytesOf "Hello, this is Client" ++ List.replicate 59 0] := by
  by_cases h1 : env.socket_ret = -1
  · left; rw [connectorMain_socket_fails env h1]; simp [writtenBytes]
  by_cases h2 : env.connect_ret = 0
  · right
    rw [connectorMain_connected env h1 h2]
    simp [writtenBytes, client_greeting]
  · left; rw [connectorMain_connect_fails env h1 h2]; simp [writtenBytes]

/-- What the Listener hands to `write` once `accept` has succeeded. -/
theorem listener_written_accepted (env : ListenerEnv) (h1 : env.socket_ret ≠ -1)
    (h2 : env.bind_ret = 0) (h3 : env.listen_ret = 0) (h4 : 0 ≤ env.accept_ret) :
    writtenBytes (listenerMain env).trace
      = [bytesOf "Hello, this is Server!" ++ List.replicate 58 0] := by
  rw [listenerMain_accepted env h1 h2 h3 h4]
  simp [writtenBytes, server_reply]

/-- What the Connector hands to `write` once `connect` has succeeded. -/
theorem connector_written_connected (env : ConnectorEnv) (h1 : env.socket_ret ≠ -1)
    (h2 : env.connect_ret = 0) :
    writtenBytes (connectorMain env).trace
      = [bytesOf "Hello, this is Client" ++ List.replicate 59 0] := by
  rw [connectorMain_connected env h1 h2]
  simp [writtenBytes, client_greeting]

/-! ## The messages -/

/-- C1: in every run of the Connector in which socket creation and connect succeed,
one byte sequence is handed to `write`; it is 80 bytes long and consists of the 21
bytes of "Hello, this is Client" followed by 59 zero bytes. -/
theorem connector_writes_greeting (env : ConnectorEnv) (h1 : env.socket_ret ≠ -1)
    (h2 : env.connect_ret = 0) :
    writtenBytes (connectorMain env).trace
        = [bytesOf "Hello, this is Client" ++ List.replicate 59 0]
      ∧ (bytesOf "Hello, this is Client" ++ List.replicate 59 0).length = 80
      ∧ (bytesOf "Hello, this is Client").length = 21 := by
  exact ⟨connector_written_connected env h1 h2, by decide, by decide⟩

theorem connector_writes_greeting_witness :
    connectorEnvOk.socket_ret ≠ -1 ∧ connectorEnvOk.connect_ret = 0 ∧
    writtenBytes (connectorMain connectorEnvOk).trace
      = [bytesOf "Hello, this is Client" ++ List.replicate 59 0] :=
  ⟨by decide, by decide, (connector_writes_greeting connectorEnvOk (by decide) (by decide)).1⟩

/-- C2: in every run of the Listener in which socket, bind, listen and accept succeed,
whatever the stack held and whatever the read delivered (or if it failed), one byte
sequence is handed to `write`; it is 80 bytes long and consists of the 22 bytes of
"Hello, this is Server!" followed by 58 zero bytes. -/
theorem listener_writes_reply (env : ListenerEnv) (h1 : env.socket_ret ≠ -1)
    (h2 : env.bind_ret = 0) (h3 : env.listen_ret = 0) (h4 : 0 ≤ env.accept_ret) :
    writtenBytes (listenerMain env).trace
        = [bytesOf "Hello, this is Server!" ++ List.replicate 58 0]
      ∧ (bytesOf "Hello, this is Server!" ++ List.replicate 58 0).length = 80
      ∧ (bytesOf "Hello, this is Server!").length = 22 := by
  exact ⟨listener_written_accepted env h1 h2 h3 h4, by decide, by decide⟩

theorem listener_writes_reply_witness :
    listenerEnvOk.socket_ret ≠ -1 ∧ listenerEnvOk.bind_ret = 0 ∧
    listenerEnvOk.listen_ret = 0 ∧ 0 ≤ listenerEnvOk.accept_ret ∧
    writtenBytes (listenerMain listenerEnvOk).trace
      = [bytesOf "Hello, this is Server!" ++ List.replicate 58 0] :=
  ⟨by decide, by decide, by decide, by decide,
    (listener_writes_reply listenerEnvOk (by decide) (by decide) (by decide) (by decide)).1⟩

/-- C3: when the Connector's read delivers the 80 bytes the Listener wrote, the text the
Connector prints after "From Server: " is exactly "Hello, this is Server!". -/
theorem connector_prints_reply (lenv : ListenerEnv) (cenv : ConnectorEnv) (w : List Byte)
    (h1 : cenv.socket_ret ≠ -1) (h2 : cenv.connect_ret = 0)
    (hw : w ∈ writtenBytes (listenerMain lenv).trace)
    (hr : cenv.read_delivers = some w) :
    printedText "From Server: %s" (connectorMain cenv).trace
      = [some (bytesOf "Hello, this is Server!")] := by
  have hw2 : w = bytesOf "Hello, this is Server!" ++ List.replicate 58 0 := by
    rcases listener_written lenv with h | h
    · rw [h] at hw; simp at hw
    · rw [h] at hw; simpa using hw
  rw [connectorMain_connected cenv h1 h2, hr, hw2, client_zeroed]
  rw [sysRead_full _ _ (by decide) (by decide)]
  have hc : cstr (bytesOf "Hello, this is Server!" ++ List.replicate 58 0)
      = some (bytesOf "Hello, this is Server!") := by decide
  dsimp only
  rw [hc]
  simp [printedText]

theorem connector_prints_reply_witness :
    printedText "From Server: %s" (connectorMain connectorEnvOk).trace
      = [some (bytesOf "Hello, this is Server!")] :=
  connector_prints_reply listenerEnvOk connectorEnvOk
    (bytesOf "Hello, this is Server!" ++ List.replicate 58 0) (by decide) (by decide)
    (by rw [listener_written_accepted listenerEnvOk (by decide) (by decide) (by decide)
      (by decide)]; simp) rfl

/-- C4: when the Listener's read delivers the 80 bytes the Connector wrote, then for
every prior content of the Listener's uninitialised buffer the text the Listener prints
after "From Client: " is exactly "Hello, this is Client". -/
theorem listener_prints_greeting (lenv : ListenerEnv) (cenv : ConnectorEnv) (w : List Byte)
    (h1 : lenv.socket_ret ≠ -1) (h2 : lenv.bind_ret = 0) (h3 : lenv.listen_ret = 0)
    (h4 : 0 ≤ lenv.accept_ret)
    (hw : w ∈ writtenBytes (connectorMain cenv).trace)
    (hr : lenv.read_delivers = some w) :
    printedText "From Client: %s\n" (listenerMain lenv).trace
      = [some (bytesOf "Hello, this is Client")] := by
  have hw2 : w = bytesOf "Hello, this is Client" ++ List.replicate 59 0 := by
    rcases connector_written cenv with h | h
    · rw [h] at hw; simp at hw
    · rw [h] at hw; simpa using hw
  rw [listenerMain_accepted lenv h1 h2 h3 h4, hr, hw2]
  rw [sysRead_full _ _ (by simp) (by decide)]
  have hc : cstr (bytesOf "Hello, this is Client" ++ List.replicate 59 0)
      = some (bytesOf "Hello, this is Client") := by decide
  have hne : ¬ ("Client address: %s\n" = "From Client: %s\n") := by decide
  dsimp only
  rw [hc]
  simp [printedText, hne]

theorem listener_prints_greeting_witness :
    printedText "From Client: %s\n" (listenerMain listenerEnvOk).trace
      = [some (bytesOf "Hello, this is Client")] :=
  listener_prints_greeting listenerEnvOk connectorEnvOk
    (bytesOf "Hello, this is Client" ++ List.replicate 59 0)
    (by decide) (by decide) (by decide) (by decide)
    (by rw [connector_written_connected connectorEnvOk (by decide) (by decide)]; simp) rfl

/-- C10: the Connector zeroes its buffer before reading, so when the read delivers
`n < 80` bytes the buffer still has 80 bytes and holds a zero byte, the printed text
is the delivered bytes up to their first zero byte (all of them if none is zero), and
the scan for the terminator ends inside the array (at an index of at most 79). -/
theorem connector_short_read_terminated (env : ConnectorEnv) (data : List Byte)
    (h1 : env.socket_ret ≠ -1) (h2 : env.connect_ret = 0)
    (hr : env.read_delivers = some data) (hn : data.length < MAX) :
    (connectorMain env).message_buffer.length = MAX
      ∧ 0 ∈ (connectorMain env).message_buffer
      ∧ cstr (connectorMain env).message_buffer
          = some (data.takeWhile (fun b => b ≠ 0))
      ∧ printedText "From Server: %s" (connectorMain env).trace
          = [some (data.takeWhile (fun b => b ≠ 0))]
      ∧ (data.takeWhile (fun b => b ≠ 0)).length ≤ 79
      ∧ ((∀ b ∈ data, b ≠ 0) → data.takeWhile (fun b => b ≠ 0) = data) := by
  have hlen : (data.takeWhile (fun b => b ≠ 0)).length ≤ data.length :=
    (List.takeWhile_sublist _).length_le
  have hM : data.length < 80 := hn
  rw [connectorMain_connected env h1 h2, hr, client_zeroed, sysRead_short data hn]
  refine ⟨?_, ?_, ?_, ?_, ?_, ?_⟩
  · simp [MAX]; omega
  · simp [List.replicate_succ]
  · simp [cstr_append_zeros]
  · simp [printedText, cstr_append_zeros]
  · omega
  · intro hall
    rw [List.takeWhile_eq_self_iff]
    intro b hb
    simpa using hall b hb

theorem connector_short_read_terminated_witness :
    printedText "From Server: %s" (connectorMain connectorEnvShort).trace
      = [some [97, 98, 99]] :=
  (connector_short_read_terminated connectorEnvShort [97, 98, 99, 0, 100]
    (by decide) (by decide) rfl (by decide)).2.2.2.1

/-! ## Descriptors -/

/-- C5, evaluated on the code: in the run where `socket` answers 3 and `accept` answers 4,
`main` returns after closing descriptor 3 only; the accepted descriptor 4 is still
open and no `close 4` was issued. -/
theorem listener_leaves_connection_open :
    (listenerMain listenerEnvOk).pc = .exited
      ∧ (listenerMain listenerEnvOk).open_fds = [4]
      ∧ Event.close 3 ∈ (listenerMain listenerEnvOk).trace
      ∧ Event.close 4 ∉ (listenerMain listenerEnvOk).trace := by
  rw [listenerMain_accepted listenerEnvOk (by decide) (by decide) (by decide) (by decide)]
  simp [listenerEnvOk]

/-! ## Exit status -/

/-- C7: every run of the Listener and of the Connector ends with exit status 0; on the
fatal paths (socket, bind, listen or accept failing; socket or connect failing) the
run ends with the call `exit(0)`, the status a successful run returns from `main`. -/
theorem exit_status_zero_on_all_paths (lenv : ListenerEnv) (cenv : ConnectorEnv) :
    (listenerMain lenv).pc = .exited ∧ (listenerMain lenv).status = some 0
      ∧ (connectorMain cenv).pc = .exited ∧ (connectorMain cenv).status = some 0
      ∧ (lenv.fatal → (listenerMain lenv).trace.getLast? = some (.exit 0))
      ∧ (cenv.fatal → (connectorMain cenv).trace.getLast? = some (.exit 0))
      ∧ (¬ lenv.fatal → (listenerMain lenv).trace.getLast? = some (.close lenv.socket_ret))
      ∧ (¬ cenv.fatal → (connectorMain cenv).trace.getLast? = some (.close cenv.socket_ret))
      := by
  have hL : (listenerMain lenv).pc = .exited ∧ (listenerMain lenv).status = some 0
      ∧ (lenv.fatal → (listenerMain lenv).trace.getLast? = some (.exit 0))
      ∧ (¬ lenv.fatal →
          (listenerMain lenv).trace.getLast? = some (.close lenv.socket_ret)) := by
    by_cases h1 : lenv.socket_ret = -1
    · rw [listenerMain_socket_fails lenv h1]; simp [ListenerEnv.fatal, h1]
    by_cases h2 : lenv.bind_ret = 0
    swap
    · rw [listenerMain_bind_fails lenv h1 h2]; simp [ListenerEnv.fatal, h2]
    by_cases h3 : lenv.listen_ret = 0
    swap
    · rw [listenerMain_listen_fails lenv h1 h2 h3]; simp [ListenerEnv.fatal, h3]
    by_cases h4 : lenv.accept_ret < 0
    · rw [listenerMain_accept_fails lenv h1 h2 h3 h4]; simp [ListenerEnv.fatal, h4]
    · rw [listenerMain_accepted lenv h1 h2 h3 (not_lt.mp h4)]
      simp [ListenerEnv.fatal, h1, h2, h3, h4]
  have hC : (connectorMain cenv).pc = .exited ∧ (connectorMain cenv).status = some 0
      ∧ (cenv.fatal → (connectorMain cenv).trace.getLast? = some (.exit 0))
      ∧ (¬ cenv.fatal →
          (connectorMain cenv).trace.getLast? = some (.close cenv.socket_ret)) := by
    by_cases h1 : cenv.socket_ret = -1
    · rw [connectorMain_socket_fails cenv h1]; simp [ConnectorEnv.fatal, h1]
    by_cases h2 : cenv.connect_ret = 0
    · rw [connectorMain_connected cenv h1 h2]; simp [ConnectorEnv.fatal, h1, h2]
    · rw [connectorMain_connect_fails cenv h1 h2]; simp [ConnectorEnv.fatal, h2]
  exact ⟨hL.1, hL.2.1, hC.1, hC.2.1, hL.2.2.1, hC.2.2.1, hL.2.2.2, hC.2.2.2⟩

/-! ## Failures -/

/-- C6 as stated fails on the code: in the run of the Listener whose `read` fails, the
failed `read` is directly followed by the print of the buffer and by the call of `write`
with the reply, not by a diagnostic and an exit. -/
theorem failed_read_is_not_fatal :
    failStop (fun _ => true) (listenerMain listenerEnvReadFails).trace = false
      ∧ ((listenerMain listenerEnvReadFails).trace.drop 9).take 3 =
          [.read 4 80 (-1), .printf "From Client: %s\n" [.str (some [])],
           .write 4 (bytesOf "Hello, this is Server!" ++ List.replicate 58 0) 80] := by
  rw [listenerMain_accepted listenerEnvReadFails (by decide) (by decide) (by decide)
    (by decide)]
  constructor
  · simp [failStop, Event.call, Event.failed, Event.ret, isDiagnosticExit, sysRead,
      listenerEnvReadFails]
  · have hb : cstr ((List.range MAX).map listenerEnvReadFails.stack_garbage) = some [] := by
      decide
    simp only [server_reply]
    simp [sysRead, listenerEnvReadFails, MAX] at hb ⊢
    exact hb

/-- C6, amended: a failed `socket`, `bind`, `listen`, `accept` or `connect` is directly
followed by a diagnostic and the exit of the process, which end the run.  A failed
`read` is not fatal: whatever `read` returns, the Listener next prints the buffer and
calls `write` with its reply, and the Connector next prints the buffer.  Nothing is
stated about what follows the call of `write`. -/
theorem tested_calls_fail_stop (lenv : ListenerEnv) (cenv : ConnectorEnv) :
    failStop resultTested (listenerMain lenv).trace = true
      ∧ failStop resultTested (connectorMain cenv).trace = true
      ∧ (∀ fd n r, Event.read fd n r ∈ (listenerMain lenv).trace →
          ∃ pre t w post, (listenerMain lenv).trace = pre ++
            .read fd n r :: .printf "From Client: %s\n" [.str t] ::
            .write fd (bytesOf "Hello, this is Server!" ++ List.replicate 58 0) w :: post)
      ∧ (∀ fd n r, Event.read fd n r ∈ (connectorMain cenv).trace →
          ∃ pre t post, (connectorMain cenv).trace = pre ++
            .read fd n r :: .printf "From Server: %s" [.str t] :: post) := by
  have hL : failStop resultTested (listenerMain lenv).trace = true
      ∧ (∀ fd n r, Event.read fd n r ∈ (listenerMain lenv).trace →
          ∃ pre t w post, (listenerMain lenv).trace = pre ++
            .read fd n r :: .printf "From Client: %s\n" [.str t] ::
            .write fd (bytesOf "Hello, this is Server!" ++ List.replicate 58 0) w ::
            post) := by
    by_cases h1 : lenv.socket_ret = -1
    · rw [listenerMain_socket_fails lenv h1]
      simp [failStop, resultTested, Event.call, Event.failed, Event.ret, isDiagnosticExit]
    by_cases h2 : lenv.bind_ret = 0
    swap
    · rw [listenerMain_bind_fails lenv h1 h2]
      simp [failStop, resultTested, Event.call, Event.failed, Event.ret, isDiagnosticExit,
        h1]
    by_cases h3 : lenv.listen_ret = 0
    swap
    · rw [listenerMain_listen_fails lenv h1 h2 h3]
      simp [failStop, resultTested, Event.call, Event.failed, Event.ret, isDiagnosticExit,
        h1]
    by_cases h4 : lenv.accept_ret < 0
    · rw [listenerMain_accept_fails lenv h1 h2 h3 h4]
      simp [failStop, resultTested, Event.call, Event.failed, Event.ret, isDiagnosticExit,
        h1]
    · rw [listenerMain_accepted lenv h1 h2 h3 (not_lt.mp h4)]
      have h4b : lenv.accept_ret ≠ -1 := by omega
      constructor
      · simp [failStop, resultTested, Event.call, Event.failed, Event.ret, h1, h4b]
      · intro fd n r hmem
        simp only [List.mem_cons, List.mem_singleton, reduceCtorEq, false_or,
          Event.read.injEq, or_false, List.not_mem_nil] at hmem
        obtain ⟨hfd, hn, hr⟩ := hmem
        subst hfd hn hr
        refine ⟨[.socket lenv.socket_ret, .printf "Socket successfully created..\n" [],
          .bind lenv.socket_ret PORT 0, .printf "Socket successfully binded..\n" [],
          .listen lenv.socket_ret 5 0, .printf "Server listening..\n" [],
          .accept lenv.socket_ret lenv.accept_ret,
          .printf "server acccept the client...\n" [],
          .printf "Client address: %s\n" [.str (some lenv.peer_address)]],
          cstr (sysRead lenv.read_delivers
            ((List.range MAX).map lenv.stack_garbage) MAX).2,
          lenv.write_ret,
          [.printf "Closing server_socket_file_descriptor\n" [],
           .close lenv.socket_ret], ?_⟩
        rw [server_reply]
        rfl
  have hC : failStop resultTested (connectorMain cenv).trace = true
      ∧ (∀ fd n r, Event.read fd n r ∈ (connectorMain cenv).trace →
          ∃ pre t post, (connectorMain cenv).trace = pre ++
            .read fd n r :: .printf "From Server: %s" [.str t] :: post) := by
    by_cases h1 : cenv.socket_ret = -1
    · rw [connectorMain_socket_fails cenv h1]
      simp [failStop, resultTested, Event.call, Event.failed, Event.ret, isDiagnosticExit]
    by_cases h2 : cenv.connect_ret = 0
    · rw [connectorMain_connected cenv h1 h2]
      constructor
      · simp [failStop, resultTested, Event.call, Event.failed, Event.ret, h1]
      · intro fd n r hmem
        simp only [List.mem_cons, List.mem_singleton, reduceCtorEq, false_or,
          Event.read.injEq, or_false, List.not_mem_nil] at hmem
        obtain ⟨hfd, hn, hr⟩ := hmem
        subst hfd hn hr
        exact ⟨[.socket cenv.socket_ret, .printf "Socket successfully created..\n" [],
          .connect cenv.socket_ret PORT 0, .printf "connected to the server..\n" [],
          .write cenv.socket_ret
            ((initArray MAX (bytesOf "Hello, this is Client")).take MAX) cenv.write_ret],
          _, [.close cenv.socket_ret], rfl⟩
    · rw [connectorMain_connect_fails cenv h1 h2]
      simp [failStop, resultTested, Event.call, Event.failed, Event.ret, isDiagnosticExit,
        h1]
  exact ⟨hL.1, hC.1, hL.2, hC.2⟩

/-! ## The runs are linear -/

theorem listenerStep_exited (env : ListenerEnv) (s : ListenerState)
    (h : s.pc = .exited) : listenerStep env s = s := by
  simp [listenerStep, h]

theorem connectorStep_exited (env : ConnectorEnv) (s : ConnectorState)
    (h : s.pc = .exited) : connectorStep env s = s := by
  simp [connectorStep, h]

theorem listenerStep_rank (env : ListenerEnv) (s : ListenerState)
    (h : s.pc ≠ .exited) : s.pc.rank < (listenerStep env s).pc.rank := by
  obtain ⟨pc, sfd, cfd, buf, fds, tr, st⟩ := s
  cases pc <;> simp [listenerStep, ListenerPC.rank] at h ⊢ <;> split_ifs <;>
    simp [ListenerPC.rank]

theorem connectorStep_rank (env : ConnectorEnv) (s : ConnectorState)
    (h : s.pc ≠ .exited) : s.pc.rank < (connectorStep env s).pc.rank := by
  obtain ⟨pc, sfd, buf, fds, tr, st⟩ := s
  cases pc <;> simp [connectorStep, ConnectorPC.rank] at h ⊢ <;> split_ifs <;>
    simp [ConnectorPC.rank]

theorem listenerStateAt_succ (env : ListenerEnv) (n : Nat) :
    listenerStateAt env (n + 1) = listenerStep env (listenerStateAt env n) := by
  simp [listenerStateAt, Function.iterate_succ_apply']

theorem connectorStateAt_succ (env : ConnectorEnv) (n : Nat) :
    connectorStateAt env (n + 1) = connectorStep env (connectorStateAt env n) := by
  simp [connectorStateAt, Function.iterate_succ_apply']

theorem listener_rank_step_le (env : ListenerEnv) (n : Nat) :
    (listenerStateAt env n).pc.rank ≤ (listenerStateAt env (n + 1)).pc.rank := by
  rw [listenerStateAt_succ]
  by_cases h : (listenerStateAt env n).pc = .exited
  · rw [listenerStep_exited env _ h]
  · exact Nat.le_of_lt (listenerStep_rank env _ h)

theorem connector_rank_step_le (env : ConnectorEnv) (n : Nat) :
    (connectorStateAt env n).pc.rank ≤ (connectorStateAt env (n + 1)).pc.rank := by
  rw [connectorStateAt_succ]
  by_cases h : (connectorStateAt env n).pc = .exited
  · rw [connectorStep_exited env _ h]
  · exact Nat.le_of_lt (connectorStep_rank env _ h)

theorem listener_rank_mono (env : ListenerEnv) (i k : Nat) :
    (listenerStateAt env i).pc.rank ≤ (listenerStateAt env (i + k)).pc.rank := by
  induction k with
  | zero => exact Nat.le_refl _
  | succ k ih => exact Nat.le_trans ih (listener_rank_step_le env (i + k))

theorem connector_rank_mono (env : ConnectorEnv) (i k : Nat) :
    (connectorStateAt env i).pc.rank ≤ (connectorStateAt env (i + k)).pc.rank := by
  induction k with
  | zero => exact Nat.le_refl _
  | succ k ih => exact Nat.le_trans ih (connector_rank_step_le env (i + k))

theorem listener_no_revisit (env : ListenerEnv) (i j : Nat) (hij : i < j)
    (h : (listenerStateAt env i).pc ≠ .exited) :
    (listenerStateAt env i).pc ≠ (listenerStateAt env j).pc := by
  intro heq
  have h1 : (listenerStateAt env i).pc.rank < (listenerStateAt env (i + 1)).pc.rank := by
    rw [listenerStateAt_succ]; exact listenerStep_rank env _ h
  have h2 := listener_rank_mono env (i + 1) (j - (i + 1))
  have h3 : i + 1 + (j - (i + 1)) = j := by omega
  rw [h3, ← heq] at h2
  omega

theorem connector_no_revisit (env : ConnectorEnv) (i j : Nat) (hij : i < j)
    (h : (connectorStateAt env i).pc ≠ .exited) :
    (connectorStateAt env i).pc ≠ (connectorStateAt env j).pc := by
  intro heq
  have h1 : (connectorStateAt env i).pc.rank < (connectorStateAt env (i + 1)).pc.rank := by
    rw [connectorStateAt_succ]; exact connectorStep_rank env _ h
  have h2 := connector_rank_mono env (i + 1) (j - (i + 1))
  have h3 : i + 1 + (j - (i + 1)) = j := by omega
  rw [h3, ← heq] at h2
  omega

theorem listenerMain_exited (env : ListenerEnv) : (listenerMain env).pc = .exited := by
  by_cases h1 : env.socket_ret = -1
  · rw [listenerMain_socket_fails env h1]
  by_cases h2 : env.bind_ret = 0
  swap
  · rw [listenerMain_bind_fails env h1 h2]
  by_cases h3 : env.listen_ret = 0
  swap
  · rw [listenerMain_listen_fails env h1 h2 h3]
  by_cases h4 : env.accept_ret < 0
  · rw [listenerMain_accept_fails env h1 h2 h3 h4]
  · rw [listenerMain_accepted env h1 h2 h3 (not_lt.mp h4)]

theorem connectorMain_exited (env : ConnectorEnv) : (connectorMain env).pc = .exited := by
  by_cases h1 : env.socket_ret = -1
  · rw [connectorMain_socket_fails env h1]
  by_cases h2 : env.connect_ret = 0
  · rw [connectorMain_connected env h1 h2]
  · rw [connectorMain_connect_fails env h1 h2]

theorem listener_stable (env : ListenerEnv) (k : Nat) :
    listenerStateAt env (11 + k) = listenerMain env := by
  induction k with
  | zero => rfl
  | succ k ih =>
    rw [← Nat.add_assoc, listenerStateAt_succ, ih]
    exact listenerStep_exited env _ (listenerMain_exited env)

theorem connector_stable (env : ConnectorEnv) (k : Nat) :
    connectorStateAt env (8 + k) = connectorMain env := by
  induction k with
  | zero => rfl
  | succ k ih =>
    rw [← Nat.add_assoc, connectorStateAt_succ, ih]
    exact connectorStep_exited env _ (connectorMain_exited env)

/-- C8: in every run the Listener calls `accept` at most once and, when `accept`
succeeds, its reads and writes are exactly one `read` followed by one `write`, both on
the accepted descriptor; the Connector calls `connect` at most once and, when it
succeeds, its reads and writes are exactly one `write` followed by one `read` on the
connected socket.  No program point is visited twice before the process has ended, and
the run has ended after eleven (Listener) and eight (Connector) steps. -/
theorem one_exchange_per_run (lenv : ListenerEnv) (cenv : ConnectorEnv) :
    callCount .accept (listenerMain lenv).trace ≤ 1
      ∧ (∀ fd r, Event.accept fd r ∈ (listenerMain lenv).trace → 0 ≤ r →
          ioCalls (listenerMain lenv).trace = [(.read, r), (.write, r)])
      ∧ callCount .connect (connectorMain cenv).trace ≤ 1
      ∧ (∀ fd port r, Event.connect fd port r ∈ (connectorMain cenv).trace → r = 0 →
          ioCalls (connectorMain cenv).trace = [(.write, fd), (.read, fd)])
      ∧ (∀ i j, i < j → (listenerStateAt lenv i).pc ≠ .exited →
          (listenerStateAt lenv i).pc ≠ (listenerStateAt lenv j).pc)
      ∧ (∀ i j, i < j → (connectorStateAt cenv i).pc ≠ .exited →
          (connectorStateAt cenv i).pc ≠ (connectorStateAt cenv j).pc)
      ∧ (∀ k, (listenerStateAt lenv (11 + k)).pc = .exited
          ∧ listenerStateAt lenv (11 + k) = listenerMain lenv)
      ∧ (∀ k, (connectorStateAt cenv (8 + k)).pc = .exited
          ∧ connectorStateAt cenv (8 + k) = connectorMain cenv) := by
  have hL : callCount .accept (listenerMain lenv).trace ≤ 1
      ∧ (∀ fd r, Event.accept fd r ∈ (listenerMain lenv).trace → 0 ≤ r →
          ioCalls (listenerMain lenv).trace = [(.read, r), (.write, r)]) := by
    by_cases h1 : lenv.socket_ret = -1
    · rw [listenerMain_socket_fails lenv h1]; simp [callCount, Event.call]
    by_cases h2 : lenv.bind_ret = 0
    swap
    · rw [listenerMain_bind_fails lenv h1 h2]; simp [callCount, Event.call]
    by_cases h3 : lenv.listen_ret = 0
    swap
    · rw [listenerMain_listen_fails lenv h1 h2 h3]; simp [callCount, Event.call]
    by_cases h4 : lenv.accept_ret < 0
    · rw [listenerMain_accept_fails lenv h1 h2 h3 h4]
      refine ⟨by simp [callCount, Event.call], ?_⟩
      intro fd r hmem hr
      simp only [List.mem_cons, List.mem_singleton, reduceCtorEq, false_or,
        Event.accept.injEq, or_false, List.not_mem_nil] at hmem
      omega
    · rw [listenerMain_accepted lenv h1 h2 h3 (not_lt.mp h4)]
      refine ⟨by simp [callCount, Event.call], ?_⟩
      intro fd r hmem _
      simp only [List.mem_cons, List.mem_singleton, reduceCtorEq, false_or,
        Event.accept.injEq, or_false, List.not_mem_nil] at hmem
      obtain ⟨_, hr⟩ := hmem
      subst hr
      simp [ioCalls]
  have hC : callCount .connect (connectorMain cenv).trace ≤ 1
      ∧ (∀ fd port r, Event.connect fd port r ∈ (connectorMain cenv).trace → r = 0 →
          ioCalls (connectorMain cenv).trace = [(.write, fd), (.read, fd)]) := by
    by_cases h1 : cenv.socket_ret = -1
    · rw [connectorMain_socket_fails cenv h1]; simp [callCount, Event.call]
    by_cases h2 : cenv.connect_ret = 0
    · rw [connectorMain_connected cenv h1 h2]
      refine ⟨by simp [callCount, Event.call], ?_⟩
      intro fd port r hmem _
      simp only [List.mem_cons, List.mem_singleton, reduceCtorEq, false_or,
        Event.connect.injEq, or_false, List.not_mem_nil] at hmem
      obtain ⟨hfd, _, _⟩ := hmem
      subst hfd
      simp [ioCalls]
    · rw [connectorMain_connect_fails cenv h1 h2]
      refine ⟨by simp [callCount, Event.call], ?_⟩
      intro fd port r hmem hr
      simp only [List.mem_cons, List.mem_singleton, reduceCtorEq, false_or,
        Event.connect.injEq, or_false, List.not_mem_nil] at hmem
      obtain ⟨_, _, hr2⟩ := hmem
      exact absurd (hr2 ▸ hr) h2
  refine ⟨hL.1, hL.2, hC.1, hC.2, listener_no_revisit lenv, connector_no_revisit cenv, ?_, ?_⟩
  · intro k
    rw [listener_stable lenv k]
    exact ⟨listenerMain_exited lenv, rfl⟩
  · intro k
    rw [connector_stable cenv k]
    exact ⟨connectorMain_exited cenv, rfl⟩

/-! ## The rotate macro -/

theorem ROTL_lt (x b : Nat) : ROTL x b < 2 ^ 64 :=
  Nat.mod_lt _ (by norm_num)

theorem ROTL_testBit (x b i : Nat) (hx : x < 2 ^ 64) (hb1 : 1 ≤ b) (hb2 : b ≤ 63)
    (hi : i < 64) : (ROTL x b).testBit i = x.testBit ((i + 64 - b) % 64) := by
  unfold ROTL
  rw [Nat.testBit_mod_two_pow, Nat.testBit_or, Nat.testBit_mod_two_pow,
    Nat.testBit_shiftLeft, Nat.testBit_shiftRight]
  by_cases hbi : b ≤ i
  · have hhigh : x.testBit (64 - b + i) = false :=
      Nat.testBit_eq_false_of_lt
        (lt_of_lt_of_le hx (Nat.pow_le_pow_right (by norm_num) (by omega)))
    have hidx : (i + 64 - b) % 64 = i - b := by omega
    simp [hi, hbi, hhigh, hidx]
  · have hidx : (i + 64 - b) % 64 = 64 - b + i := by omega
    simp [hi, hbi, hidx]

theorem ROTL_testBit_high (x b i : Nat) (hi : 64 ≤ i) : (ROTL x b).testBit i = false :=
  Nat.testBit_eq_false_of_lt
    (lt_of_lt_of_le (ROTL_lt x b) (Nat.pow_le_pow_right (by norm_num) hi))

theorem ROTL_inverse (x b : Nat) (hx : x < 2 ^ 64) (hb1 : 1 ≤ b) (hb2 : b ≤ 63) :
    ROTL (ROTL x b) (64 - b) = x := by
  apply Nat.eq_of_testBit_eq
  intro i
  by_cases hi : i < 64
  · rw [ROTL_testBit _ _ _ (ROTL_lt x b) (by omega) (by omega) hi,
      ROTL_testBit _ _ _ hx hb1 hb2 (Nat.mod_lt _ (by norm_num))]
    congr 1
    omega
  · rw [ROTL_testBit_high _ _ _ (by omega)]
    exact (Nat.testBit_eq_false_of_lt
      (lt_of_lt_of_le hx (Nat.pow_le_pow_right (by norm_num) (by omega)))).symm

theorem ROTL_sum (x b : Nat) (hx : x < 2 ^ 64) (hb2 : b ≤ 63) :
    ROTL x b = (x * 2 ^ b) % 2 ^ 64 + x / 2 ^ (64 - b) := by
  have hpow : (2 : Nat) ^ 64 = 2 ^ b * 2 ^ (64 - b) := by
    rw [← Nat.pow_add]; congr 1; omega
  have hh : x / 2 ^ (64 - b) < 2 ^ b := by
    apply Nat.div_lt_of_lt_mul
    rw [Nat.mul_comm, ← hpow]; exact hx
  have hl : (x * 2 ^ b) % 2 ^ 64 = 2 ^ b * (x % 2 ^ (64 - b)) := by
    rw [hpow, Nat.mul_comm x, Nat.mul_mod_mul_left]
  have hor : (ROTL x b) = ((x * 2 ^ b) % 2 ^ 64) ||| (x / 2 ^ (64 - b)) := by
    unfold ROTL
    rw [Nat.shiftLeft_eq, Nat.shiftRight_eq_div_pow]
    apply Nat.mod_eq_of_lt
    apply Nat.or_lt_two_pow
    · exact Nat.mod_lt _ (by norm_num)
    · exact lt_of_lt_of_le hh (Nat.pow_le_pow_right (by norm_num) (by omega))
  rw [hor, hl, Nat.mul_add_lt_is_or hh]

/-- C9: for every 64-bit unsigned `x` and every `b` with `1 ≤ b ≤ 63`, `ROTL(x, b)` is
the cyclic left rotation of `x` by `b` bits: it equals
`((x * 2^b) mod 2^64) + (x div 2^(64-b))`, it is a 64-bit value whose bit `i` is bit
`(i - b) mod 64` of `x`, and rotating it by `64 - b` gives `x` back. -/
theorem ROTL_is_cyclic_rotation (x b : Nat) (hx : x < 2 ^ 64) (hb1 : 1 ≤ b)
    (hb2 : b ≤ 63) :
    ROTL x b = (x * 2 ^ b) % 2 ^ 64 + x / 2 ^ (64 - b)
      ∧ ROTL x b < 2 ^ 64
      ∧ (∀ i, i < 64 →
          (ROTL x b).testBit i = x.testBit ((((i : Int) - (b : Int)) % 64).toNat))
      ∧ ROTL (ROTL x b) (64 - b) = x := by
  refine ⟨ROTL_sum x b hx hb2, ROTL_lt x b, ?_, ROTL_inverse x b hx hb1 hb2⟩
  intro i hi
  have hidx : ((((i : Int) - (b : Int)) % 64).toNat) = (i + 64 - b) % 64 := by omega
  rw [hidx]
  exact ROTL_testBit x b i hx hb1 hb2 hi

theorem ROTL_is_cyclic_rotation_witness :
    v1 < 2 ^ 64 ∧ test2Main = [7237128888997146477, 17171149835834600589]
      ∧ ROTL v1 13 = (v1 * 2 ^ 13) % 2 ^ 64 + v1 / 2 ^ (64 - 13)
      ∧ ROTL (ROTL v1 13) (64 - 13) = v1 :=
  ⟨by decide, by decide,
    (ROTL_is_cyclic_rotation v1 13 (by decide) (by decide) (by decide)).1,
    (ROTL_is_cyclic_rotation v1 13 (by decide) (by decide) (by decide)).2.2.2⟩

end RedisInRuby
